import Mathlib

/-!
Verification of the camera stream-URL resolver (`fetch_stream.py`) of the
surf-dashboard repository.

The resolver iterates over a fixed dict of camera landing pages.  For each
source it fetches the landing page, searches the text of the response body for
a double-quoted player URL with `re.search`, fetches that player page, takes
the last `<script>` tag, extracts `var address = '...';` and
`var streamid = '...';` from its text with `re.search`, and records
`<address with scheme forced to https>streams/<streamid>/stream.m3u8` in the
`stream_urls` dict, which is finally serialized to `stream_url.json`.

The embedding models HTTP responses abstractly: a response carries the string
the code derives from its body (`str(response.content)`), together with the
structured views BeautifulSoup would give of it (the `src` of each `<iframe>`
element, and the `.string` of each `<script>` tag in document order).
Python exceptions are modelled by an explicit error type; `except TypeError`
is the only handler in the program.
-/

/-- The character classes the searches need, kept as named constants. -/
def quoteChar : Char := Char.ofNat 34

/-- Single-quote character (the delimiter of the Python string literals the
`var address` / `var streamid` patterns capture). -/
def aposChar : Char := Char.ofNat 39

/-- Newline; the regex metacharacter `.` matches every character except this
one, and an unescaped `(.*)` group cannot cross it. -/
def nlChar : Char := Char.ofNat 10

/-- Python exception classes that the statements of `fetch_stream.py` can
raise.  `requestException` stands for any network-level error raised by
`requests.get`; `attributeError` is what `None.group(1)` and `None.strip()`
raise; `indexError` is what `[][-1]` raises.  `typeError` is included because
line 26 of the source installs a handler for exactly that class. -/
inductive PyExc where
  | requestException
  | typeError
  | attributeError
  | indexError
deriving DecidableEq, Repr

/-- An HTTP response, as the resolver observes it.  `body` is the text the
code searches (`str(response.content)`); `iframes` lists the `src` attribute
of each `<iframe>` element of the parsed document in order (this view is read
only by the commented-out structural strategy, never by the live code);
`scripts` lists, for each `<script>` tag of the parsed document in order, its
BeautifulSoup `.string` (`none` when the tag has no single text child, e.g. an
external or empty script tag).  `status` is the HTTP status code; the source
never consults it (there is no `raise_for_status` call). -/
structure HttpResponse where
  status : Nat
  body : String
  iframes : List String
  scripts : List (Option String)
deriving DecidableEq, Repr

instance {ε α : Type} [DecidableEq ε] [DecidableEq α] : DecidableEq (Except ε α) := fun a b =>
  match a, b with
  | .error x, .error y =>
      if h : x = y then isTrue (congrArg Except.error h)
      else isFalse (fun he => h (Except.error.inj he))
  | .error _, .ok _ => isFalse (fun he => Except.noConfusion he)
  | .ok _, .error _ => isFalse (fun he => Except.noConfusion he)
  | .ok x, .ok y =>
      if h : x = y then isTrue (congrArg Except.ok h)
      else isFalse (fun he => h (Except.ok.inj he))

/-- The network, as a partial map from URL to response; `none` means the GET
raises a `requests` exception. -/
abbrev Net : Type := String → Option HttpResponse

/-- The output mapping built by the loop: an association list with Python
`dict` semantics. -/
abbrev StreamTable : Type := List (String × String)

/-- Python `dict.__setitem__`: overwrite in place when the key is present,
append otherwise. -/
def dictInsert : StreamTable → String → String → StreamTable
  | [], k, v => [(k, v)]
  | (k0, v0) :: rest, k, v =>
      if k0 = k then (k, v) :: rest else (k0, v0) :: dictInsert rest k v

/-- Python `str.strip()` whitespace predicate (the ASCII part relevant
here). -/
def isPyWs (c : Char) : Bool :=
  c = ' ' || c = Char.ofNat 9 || c = nlChar || c = Char.ofNat 13 ||
  c = Char.ofNat 11 || c = Char.ofNat 12

/-- Python `str.strip()` on a character list. -/
def pyStrip (cs : List Char) : List Char :=
  ((cs.dropWhile isPyWs).reverse.dropWhile isPyWs).reverse

/-- Python `str.strip()`. -/
def pyStripS (s : String) : String := String.mk (pyStrip s.data)

/-- Python slicing `s[4:]`: drop the first four characters. -/
def pySlice4 (s : String) : String := String.mk (s.data.drop 4)

/-- Match a literal regex fragment, returning the rest of the input. -/
def expectLit (lit cs : List Char) : Option (List Char) :=
  if lit.isPrefixOf cs then some (cs.drop lit.length) else none

/-- Match the regex metacharacter `.`: one character other than newline. -/
def expectDot : List Char → Option (Char × List Char)
  | [] => none
  | c :: rest => if c = nlChar then none else some (c, rest)

/-- Attempt the pattern `"(https://ipcamlive.com/player/player.php?[^"]*)"` at
the head of the input, returning group 1.  The dots of `ipcamlive.com` and
`player.php` are regex metacharacters matching any non-newline character, and
`php?` makes the final `p` optional; since `p` is itself a non-quote
character, `p?[^"]*"` consumes exactly the characters up to (and then) the
next double quote, so the optional branch folds into the `[^"]*` run. -/
def matchPlayerAt (cs : List Char) : Option (List Char) := do
  let cs1 ← expectLit [quoteChar] cs
  let cs2 ← expectLit "https://ipcamlive".data cs1
  let (c1, cs3) ← expectDot cs2
  let cs4 ← expectLit "com/player/player".data cs3
  let (c2, cs5) ← expectDot cs4
  let cs6 ← expectLit "ph".data cs5
  let run := cs6.takeWhile (fun c => c ≠ quoteChar)
  match cs6.drop run.length with
  | c :: _ =>
      if c = quoteChar then
        some ("https://ipcamlive".data ++ [c1] ++ "com/player/player".data ++
              [c2] ++ "ph".data ++ run)
      else none
  | [] => none

/-- `re.search` scanning for `matchPlayerAt`: the leftmost position at which
the full pattern matches wins. -/
def searchPlayerFrom : List Char → Option (List Char)
  | [] => none
  | c :: rest =>
      match matchPlayerAt (c :: rest) with
      | some g => some g
      | none => searchPlayerFrom rest

/-- `re.search(r'"(https://ipcamlive.com/player/player.php?[^"]*)"', body)`,
returning group 1 of the match when one exists (line 24 of the source). -/
def searchPlayerUrl (body : String) : Option String :=
  (searchPlayerFrom body.data).map String.mk

/-- Greedy group of `(.*)';` within one line: the longest prefix `g` of the
line such that `g` is immediately followed by `';`.  Backtracking from the
right, this is the text before the last occurrence of `';` in the line. -/
def greedyGroup : List Char → Option (List Char)
  | [] => none
  | c :: rest =>
      match greedyGroup rest with
      | some g => some (c :: g)
      | none =>
          if c = aposChar && rest.head? = some (Char.ofNat 59) then some []
          else none

/-- Attempt the pattern `<lit>(.*)';` at the head of the input: the literal
prefix, then a greedy non-newline group closed by `';` on the same line. -/
def searchVarAt (lit cs : List Char) : Option (List Char) :=
  if lit.isPrefixOf cs then
    greedyGroup ((cs.drop lit.length).takeWhile (fun c => c ≠ nlChar))
  else none

/-- `re.search` scanning for `searchVarAt lit`: leftmost match wins. -/
def searchVarFrom (lit : List Char) : List Char → Option (List Char)
  | [] => none
  | c :: rest =>
      match searchVarAt lit (c :: rest) with
      | some g => some g
      | none => searchVarFrom lit rest

/-- `re.search("var address = '(.*)';", text)`, group 1 (line 35). -/
def searchVarAddress (text : String) : Option String :=
  (searchVarFrom ("var address = ".data ++ [aposChar]) text.data).map String.mk

/-- `re.search("var streamid = '(.*)';", text)`, group 1 (line 37). -/
def searchVarStreamid (text : String) : Option String :=
  (searchVarFrom ("var streamid = ".data ++ [aposChar]) text.data).map String.mk

/-- `find_all('script')[-1]` (line 33): the last script tag of the page, or an
`IndexError` when the page has none. -/
def lastTag : List (Option String) → Except PyExc (Option String)
  | [] => .error .indexError
  | [t] => .ok t
  | _ :: t :: ts => lastTag (t :: ts)

/-- Lines 18-28 of the source: the `try:` block around the textual search and
`m.group(1)`, with its `except TypeError: print; continue` handler.  When the
search fails, `m` is `None` and `m.group(1)` raises `AttributeError`, which is
not a `TypeError`; the handler converts only a `TypeError` into a skip
(`.ok none`), every other exception propagates. -/
def tryIframeSrc (body : String) : Except PyExc (Option String) :=
  let attempt : Except PyExc String :=
    match searchPlayerUrl body with
    | none => .error .attributeError
    | some s => .ok s
  match attempt with
  | .ok s => .ok (some s)
  | .error .typeError => .ok none
  | .error e => .error e

/-- Lines 15-41 of the source, for one source URL: the two fetches, the
player-URL search, the last-script selection, the two parameter extractions,
the scheme rewrite `"https" + address[4:]`, and the final guard
`if stream_id is not None`.  Returns `.ok (some mediaURL)` when a URL is
recorded, `.ok none` when the iteration falls through without recording
(the `continue` of the TypeError handler), and `.error e` when exception `e`
escapes the iteration. -/
def resolveSource (net : Net) (url : String) : Except PyExc (Option String) :=
  match net url with
  | none => .error .requestException
  | some response =>
    match tryIframeSrc response.body with
    | .error e => .error e
    | .ok none => .ok none
    | .ok (some iframe_src) =>
      match net iframe_src with
      | none => .error .requestException
      | some iframe_response =>
        match lastTag iframe_response.scripts with
        | .error e => .error e
        | .ok none => .error .attributeError
        | .ok (some script_raw) =>
          let script_text := pyStripS script_raw
          match searchVarAddress script_text with
          | none => .error .attributeError
          | some extracted =>
            let stream_address := "https" ++ pySlice4 extracted
            match searchVarStreamid script_text with
            | none => .error .attributeError
            | some stream_id =>
              match (some stream_id : Option String) with
              | some sid =>
                  .ok (some (stream_address ++ "streams/" ++ sid ++ "/stream.m3u8"))
              | none => .ok none

/-- The `for name, url in urls.items():` loop (lines 13-41), generalized over
the source list: iterate in order, accumulate into the dict, propagate any
escaping exception (which aborts the whole run). -/
def runSources (net : Net) : List (String × String) → StreamTable → Except PyExc StreamTable
  | [], acc => .ok acc
  | (name, url) :: rest, acc =>
      match resolveSource net url with
      | .error e => .error e
      | .ok none => runSources net rest acc
      | .ok (some u) => runSources net rest (dictInsert acc name u)

/-- The module-level `urls` dict of the source program. -/
def urls : List (String × String) :=
  [("dolphinarium", "https://beachcam.co.il/dolfinarium.html"),
   ("hilton", "https://beachcam.co.il/yamit.html"),
   ("bat-galim", "https://beachcam.co.il/batgalim.html"),
   ("meridian", "https://beachcam.co.il/meridian.html")]

/-- The whole script: `stream_urls = {}` then the loop over `urls`. -/
def fetchStreamRun (net : Net) : Except PyExc StreamTable :=
  runSources net urls []

/-- Content of `stream_url.json` after a run, as a function of its prior
content: when the loop completes, lines 43-44 open the file in `"w"` mode
(truncating it) and `json.dump` the freshly built table; when an exception
escapes the loop, the program dies before reaching the `open`, leaving the
prior artifact untouched. -/
def artifactAfter (net : Net) (sources : List (String × String))
    (prior : Option StreamTable) : Option StreamTable :=
  match runSources net sources [] with
  | .ok t => some t
  | .error _ => prior

/-- A network transformer that changes only the HTTP status codes of the
responses. -/
def withStatus (f : String → Nat) (net : Net) : Net :=
  fun u => (net u).map fun r => { r with status := f u }

/-- A network transformer that changes only the parsed iframe list of the
responses. -/
def withIframes (f : String → List String) (net : Net) : Net :=
  fun u => (net u).map fun r => { r with iframes := f u }

/-- Modelled from the spec (section 4.1 step 2, primary strategy; present in
the source only as the commented-out lines 19-23): take the first iframe
whose `src` belongs to the provider domain (`'ipcamlive.com' in src`); only
when no iframe structurally matches, apply the textual pattern to the raw
body and take its first match. -/
def listContains (needle : List Char) : List Char → Bool
  | [] => needle.isEmpty
  | c :: rest => needle.isPrefixOf (c :: rest) || listContains needle rest

/-- Modelled from the spec: the two-strategy player-URL location, structural
first, textual fallback second.  Compared against the live code, which uses
only the textual search. -/
def spec_locatePlayerUrl (r : HttpResponse) : Option String :=
  match r.iframes.filter (fun s => listContains "ipcamlive.com".data s.data) with
  | s :: _ => some s
  | [] => searchPlayerUrl r.body

/-- Modelled from the spec (section 4.1 step 4): the last inline script in
document order, where an inline script is a script tag that has text
content. -/
def lastInlineScript (tags : List (Option String)) : Option String :=
  (tags.filterMap id).getLast?

/-! ## Shared lemmas about the resolver -/

theorem tryIframeSrc_ok_some_iff (body s : String) :
    tryIframeSrc body = .ok (some s) ↔ searchPlayerUrl body = some s := by
  unfold tryIframeSrc
  cases h : searchPlayerUrl body <;> simp [h]

theorem tryIframeSrc_ne_skip (body : String) : tryIframeSrc body ≠ .ok none := by
  unfold tryIframeSrc
  cases h : searchPlayerUrl body <;> simp [h]

theorem tryIframeSrc_error (body : String) (h : searchPlayerUrl body = none) :
    tryIframeSrc body = .error .attributeError := by
  unfold tryIframeSrc
  simp [h]

/-- The iteration for one source never falls through without either recording
a URL or raising: the `except TypeError` handler is dead code because the
failure it was meant to catch raises `AttributeError`. -/
theorem resolveSource_ne_skip (net : Net) (url : String) :
    resolveSource net url ≠ .ok none := by
  unfold resolveSource
  cases hr : net url with
  | none => simp
  | some resp =>
    cases ht : tryIframeSrc resp.body with
    | error e => simp [ht]
    | ok o =>
      cases o with
      | none => exact absurd ht (tryIframeSrc_ne_skip resp.body)
      | some ifr =>
        simp only [ht]
        cases hp : net ifr with
        | none => simp
        | some presp =>
          cases hl : lastTag presp.scripts with
          | error e => simp [hl]
          | ok t =>
            cases t with
            | none => simp [hl]
            | some raw =>
              simp only [hl]
              cases ha : searchVarAddress (pyStripS raw) with
              | none => simp [ha]
              | some addr =>
                simp only [ha]
                cases hs : searchVarStreamid (pyStripS raw) with
                | none => simp [hs]
                | some sid => simp [hs]

/-- Forward computation: when every step succeeds, the recorded URL is the
composed one. -/
theorem resolveSource_ok_of (net : Net) (url : String) (resp presp : HttpResponse)
    (ifr raw addr sid : String)
    (h1 : net url = some resp) (h2 : searchPlayerUrl resp.body = some ifr)
    (h3 : net ifr = some presp) (h4 : lastTag presp.scripts = .ok (some raw))
    (h5 : searchVarAddress (pyStripS raw) = some addr)
    (h6 : searchVarStreamid (pyStripS raw) = some sid) :
    resolveSource net url =
      .ok (some ("https" ++ pySlice4 addr ++ "streams/" ++ sid ++ "/stream.m3u8")) := by
  unfold resolveSource
  simp only [h1, (tryIframeSrc_ok_some_iff resp.body ifr).mpr h2, h3, h4, h5, h6]

/-- Success inversion: a recorded URL can only have come from a full chain of
successful fetches and extractions, and has the composed shape. -/
theorem resolveSource_ok_inv (net : Net) (url v : String)
    (h : resolveSource net url = .ok (some v)) :
    ∃ resp ifr presp raw addr sid,
      net url = some resp ∧ searchPlayerUrl resp.body = some ifr ∧
      net ifr = some presp ∧ lastTag presp.scripts = .ok (some raw) ∧
      searchVarAddress (pyStripS raw) = some addr ∧
      searchVarStreamid (pyStripS raw) = some sid ∧
      v = "https" ++ pySlice4 addr ++ "streams/" ++ sid ++ "/stream.m3u8" := by
  unfold resolveSource at h
  cases hr : net url with
  | none => simp [hr] at h
  | some resp =>
    simp only [hr] at h
    cases ht : tryIframeSrc resp.body with
    | error e => simp [ht] at h
    | ok o =>
      cases o with
      | none => exact absurd ht (tryIframeSrc_ne_skip resp.body)
      | some ifr =>
        simp only [ht] at h
        cases hp : net ifr with
        | none => simp [hp] at h
        | some presp =>
          simp only [hp] at h
          cases hl : lastTag presp.scripts with
          | error e => simp [hl] at h
          | ok t =>
            cases t with
            | none => simp [hl] at h
            | some raw =>
              simp only [hl] at h
              cases ha : searchVarAddress (pyStripS raw) with
              | none => simp [ha] at h
              | some addr =>
                simp only [ha] at h
                cases hs : searchVarStreamid (pyStripS raw) with
                | none => simp [hs] at h
                | some sid =>
                  simp only [hs, Except.ok.injEq, Option.some.injEq] at h
                  exact ⟨resp, ifr, presp, raw, addr, sid, rfl,
                    (tryIframeSrc_ok_some_iff resp.body ifr).mp ht, hp, hl, ha, hs, h.symm⟩

/-! ## Shared lemmas about the loop and the dict -/

theorem dictInsert_mem (acc : StreamTable) (k v : String) (p : String × String)
    (h : p ∈ dictInsert acc k v) : p = (k, v) ∨ p ∈ acc := by
  induction acc with
  | nil => simpa [dictInsert] using h
  | cons q rest ih =>
    obtain ⟨k0, v0⟩ := q
    by_cases hk : k0 = k
    · subst hk
      simp only [dictInsert, if_pos rfl] at h
      rcases List.mem_cons.mp h with h1 | h1
      · exact Or.inl h1
      · exact Or.inr (List.mem_cons_of_mem _ h1)
    · simp only [dictInsert, if_neg hk] at h
      rcases List.mem_cons.mp h with h1 | h1
      · exact Or.inr (h1 ▸ List.mem_cons_self _ _)
      · rcases ih h1 with h2 | h2
        · exact Or.inl h2
        · exact Or.inr (List.mem_cons_of_mem _ h2)

theorem dictInsert_keys_mem (acc : StreamTable) (k v x : String)
    (h : x ∈ (dictInsert acc k v).map Prod.fst) : x = k ∨ x ∈ acc.map Prod.fst := by
  rcases List.mem_map.mp h with ⟨p, hp, hx⟩
  rcases dictInsert_mem acc k v p hp with h1 | h1
  · exact Or.inl (by rw [← hx, h1])
  · exact Or.inr (hx ▸ List.mem_map_of_mem Prod.fst h1)

theorem dictInsert_keys_nodup (acc : StreamTable) (k v : String)
    (h : (acc.map Prod.fst).Nodup) : ((dictInsert acc k v).map Prod.fst).Nodup := by
  induction acc with
  | nil => simp [dictInsert]
  | cons q rest ih =>
    obtain ⟨k0, v0⟩ := q
    simp only [List.map_cons, List.nodup_cons] at h
    by_cases hk : k0 = k
    · subst hk
      simpa [dictInsert, List.nodup_cons] using h
    · simp only [dictInsert, if_neg hk, List.map_cons, List.nodup_cons]
      refine ⟨fun hmem => ?_, ih h.2⟩
      rcases dictInsert_keys_mem rest k v k0 hmem with h1 | h1
      · exact hk h1
      · exact h.1 h1

/-- Provenance of the entries of a completed run: every entry was either
already in the accumulator or recorded from a source that fully resolved to
exactly that URL. -/
theorem runSources_mem (net : Net) (srcs : List (String × String))
    (acc t : StreamTable) (h : runSources net srcs acc = .ok t)
    (p : String × String) (hp : p ∈ t) :
    p ∈ acc ∨ ∃ u, (p.1, u) ∈ srcs ∧ resolveSource net u = .ok (some p.2) := by
  induction srcs generalizing acc with
  | nil =>
    simp only [runSources, Except.ok.injEq] at h
    exact Or.inl (h ▸ hp)
  | cons q rest ih =>
    obtain ⟨name, url⟩ := q
    simp only [runSources] at h
    cases hres : resolveSource net url with
    | error e => rw [hres] at h; exact absurd h (by simp)
    | ok o =>
      cases o with
      | none =>
        rw [hres] at h
        rcases ih acc h with h1 | ⟨u, hu1, hu2⟩
        · exact Or.inl h1
        · exact Or.inr ⟨u, List.mem_cons_of_mem _ hu1, hu2⟩
      | some v =>
        rw [hres] at h
        rcases ih (dictInsert acc name v) h with h1 | ⟨u, hu1, hu2⟩
        · rcases dictInsert_mem acc name v p h1 with h2 | h2
          · refine Or.inr ⟨url, ?_, ?_⟩
            · rw [h2]; exact List.mem_cons_self _ _
            · rw [h2]; exact hres
          · exact Or.inl h2
        · exact Or.inr ⟨u, List.mem_cons_of_mem _ hu1, hu2⟩

/-- A completed run's table has no duplicate keys, provided the accumulator
started with none. -/
theorem runSources_nodup (net : Net) (srcs : List (String × String))
    (acc t : StreamTable) (hacc : (acc.map Prod.fst).Nodup)
    (h : runSources net srcs acc = .ok t) : (t.map Prod.fst).Nodup := by
  induction srcs generalizing acc with
  | nil =>
    simp only [runSources, Except.ok.injEq] at h
    exact h ▸ hacc
  | cons q rest ih =>
    obtain ⟨name, url⟩ := q
    simp only [runSources] at h
    cases hres : resolveSource net url with
    | error e => rw [hres] at h; exact absurd h (by simp)
    | ok o =>
      cases o with
      | none => rw [hres] at h; exact ih acc hacc h
      | some v =>
        rw [hres] at h
        exact ih (dictInsert acc name v) (dictInsert_keys_nodup acc name v hacc) h

/-- An exception raised for the head source aborts the whole loop with that
exception. -/
theorem runSources_error_head (net : Net) (name url : String)
    (rest : List (String × String)) (acc : StreamTable) (e : PyExc)
    (h : resolveSource net url = .error e) :
    runSources net ((name, url) :: rest) acc = .error e := by
  simp only [runSources, h]

/-- The last element of a nonempty script list is what `[-1]` selects. -/
theorem lastTag_append_single (pre : List (Option String)) (x : Option String) :
    lastTag (pre ++ [x]) = .ok x := by
  induction pre with
  | nil => rfl
  | cons a rest ih =>
    cases rest with
    | nil => rfl
    | cons b rest2 => simpa [lastTag] using ih

/-- Two networks whose responses agree on body and scripts make the resolver
behave identically: the status code and the parsed iframe list are never
consulted. -/
theorem resolveSource_congr (net net2 : Net) (url : String)
    (hb : ∀ u, (net2 u).map HttpResponse.body = (net u).map HttpResponse.body)
    (hs : ∀ u, (net2 u).map HttpResponse.scripts = (net u).map HttpResponse.scripts) :
    resolveSource net2 url = resolveSource net url := by
  unfold resolveSource
  cases hr : net url with
  | none =>
    have h2 : net2 url = none := by
      cases h2 : net2 url with
      | none => rfl
      | some r =>
        have := hb url
        rw [hr, h2] at this
        simp at this
    simp [h2]
  | some resp =>
    obtain ⟨resp2, hr2⟩ : ∃ r, net2 url = some r := by
      have := hb url
      rw [hr] at this
      cases h2 : net2 url with
      | none => rw [h2] at this; simp at this
      | some r => exact ⟨r, rfl⟩
    have hbody : resp2.body = resp.body := by
      have := hb url
      rw [hr, hr2] at this
      simpa using this
    simp only [hr2, hbody]
    cases ht : tryIframeSrc resp.body with
    | error e => simp [ht]
    | ok o =>
      cases o with
      | none => simp [ht]
      | some ifr =>
        simp only [ht]
        cases hp : net ifr with
        | none =>
          have h2 : net2 ifr = none := by
            cases h2 : net2 ifr with
            | none => rfl
            | some r =>
              have := hb ifr
              rw [hp, h2] at this
              simp at this
          simp [h2]
        | some presp =>
          obtain ⟨presp2, hp2⟩ : ∃ r, net2 ifr = some r := by
            have := hb ifr
            rw [hp] at this
            cases h2 : net2 ifr with
            | none => rw [h2] at this; simp at this
            | some r => exact ⟨r, rfl⟩
          have hscr : presp2.scripts = presp.scripts := by
            have := hs ifr
            rw [hp, hp2] at this
            simpa using this
          simp only [hp2, hscr]

/-- Batch-level version of `resolveSource_congr`. -/
theorem runSources_congr (net net2 : Net)
    (hb : ∀ u, (net2 u).map HttpResponse.body = (net u).map HttpResponse.body)
    (hs : ∀ u, (net2 u).map HttpResponse.scripts = (net u).map HttpResponse.scripts)
    (srcs : List (String × String)) (acc : StreamTable) :
    runSources net2 srcs acc = runSources net srcs acc := by
  induction srcs generalizing acc with
  | nil => rfl
  | cons q rest ih =>
    obtain ⟨name, url⟩ := q
    simp only [runSources, resolveSource_congr net net2 url hb hs]
    cases resolveSource net url with
    | error e => rfl
    | ok o => cases o with
      | none => exact ih acc
      | some v => exact ih (dictInsert acc name v)

/-! ## Concrete pages and networks used by the counterexamples and witnesses -/

/-- The single-quote string. -/
def aposS : String := String.mk [aposChar]

/-- The double-quote string. -/
def quoteS : String := String.mk [quoteChar]

/-- The newline string. -/
def nlS : String := String.mk [nlChar]

/-- A realistic player configuration script: the two assignments on separate
lines, as on the provider's player pages. -/
def goodScript : String :=
  "var address = " ++ aposS ++ "http://foo.example.com/" ++ aposS ++ ";" ++ nlS ++
  "var streamid = " ++ aposS ++ "abc123" ++ aposS ++ ";"

/-- A player script containing only the mandatory `streamid` assignment. -/
def scriptOnlyStreamid : String :=
  "var streamid = " ++ aposS ++ "xyz" ++ aposS ++ ";"

/-- A player script containing only the `address` assignment. -/
def scriptOnlyAddress : String :=
  "var address = " ++ aposS ++ "http://foo.example.com/" ++ aposS ++ ";"

/-- A player script whose `streamid` literal is the empty string. -/
def scriptEmptyStreamid : String :=
  "var address = " ++ aposS ++ "http://foo.example.com/" ++ aposS ++ ";" ++ nlS ++
  "var streamid = " ++ aposS ++ aposS ++ ";"

/-- A player URL of the provider. -/
def purlA : String := "https://ipcamlive.com/player/player.php?alias=A"

/-- A second player URL of the provider. -/
def purlB : String := "https://ipcamlive.com/player/player.php?alias=B"

/-- A landing page embedding `purlA` in a double-quoted iframe `src`. -/
def landingQuotedA : String :=
  "<html><iframe src=" ++ quoteS ++ purlA ++ quoteS ++ "></iframe></html>"

/-- A landing page embedding `purlB` in a double-quoted iframe `src`. -/
def landingQuotedB : String :=
  "<html><iframe src=" ++ quoteS ++ purlB ++ quoteS ++ "></iframe></html>"

/-- A landing page whose iframe `src` is single-quoted: the element is there
structurally, but the body contains no double-quoted player URL. -/
def landingAposA : String :=
  "<iframe src=" ++ aposS ++ purlA ++ aposS ++ "></iframe>"

/-- The single-quoted landing page as a parsed response: one iframe element,
whose `src` is the provider player URL. -/
def respAposA : HttpResponse := ⟨200, landingAposA, [purlA], []⟩

/-- The media URL that `goodScript` resolves to. -/
def fooURL : String := "https://foo.example.com/streams/abc123/stream.m3u8"

/-- Network for C1: source `a` has a landing page with no double-quoted
player URL; source `b` resolves fully. -/
def netC1 : Net := fun u =>
  if u = "uA" then some ⟨200, "<html></html>", [], []⟩
  else if u = "uB" then some ⟨200, landingQuotedA, [purlA], []⟩
  else if u = purlA then some ⟨200, "", [], [some goodScript]⟩
  else none

/-- Network for C2: the landing page of `uL2` carries the player iframe only
in single-quoted (structural) form; the player page itself is fine. -/
def netC2 : Net := fun u =>
  if u = "uL2" then some respAposA
  else if u = purlA then some ⟨200, "", [], [some goodScript]⟩
  else none

/-- Network for C3 and the success-path witnesses: everything resolves. -/
def netC3 : Net := fun u =>
  if u = "uL3" then some ⟨200, landingQuotedA, [purlA], []⟩
  else if u = purlA then some ⟨200, "", [], [some goodScript]⟩
  else none

/-- Network for C4: the player script has a `streamid` but no `address`. -/
def netC4 : Net := fun u =>
  if u = "uL4" then some ⟨200, landingQuotedA, [purlA], []⟩
  else if u = purlA then some ⟨200, "", [], [some scriptOnlyStreamid]⟩
  else none

/-- Network for C5: source `a` reaches a player script with no `streamid`;
source `b` would resolve fully. -/
def netC5 : Net := fun u =>
  if u = "uA5" then some ⟨200, landingQuotedB, [purlB], []⟩
  else if u = purlB then some ⟨200, "", [], [some scriptOnlyAddress]⟩
  else if u = "uB5" then some ⟨200, landingQuotedA, [purlA], []⟩
  else if u = purlA then some ⟨200, "", [], [some goodScript]⟩
  else none

/-- Script list of the C6 player page: an inline configuration script followed
by a script tag with no text content (e.g. an external `<script src=...>`). -/
def scriptsC6 : List (Option String) := [some goodScript, none]

/-- Network for C6: the last script tag of the player page has no text. -/
def netC6 : Net := fun u =>
  if u = "uL6" then some ⟨200, landingQuotedA, [purlA], []⟩
  else if u = purlA then some ⟨200, "", [], scriptsC6⟩
  else none

/-- Network for C6, zero-scripts case: the player page has no script tags. -/
def netC6e : Net := fun u =>
  if u = "uL6e" then some ⟨200, landingQuotedB, [purlB], []⟩
  else if u = purlB then some ⟨200, "", [], []⟩
  else none

/-- Network for C10: the player script has an empty `streamid` literal. -/
def netC10 : Net := fun u =>
  if u = "uL10" then some ⟨200, landingQuotedA, [purlA], []⟩
  else if u = purlA then some ⟨200, "", [], [some scriptEmptyStreamid]⟩
  else none

/-! ## Claim theorems -/

/-- C1 (counterexample): a source whose landing page contains no double-quoted
player URL makes the batch abort with an uncaught `AttributeError`
(`None.group(1)` is not a `TypeError`), even though the next source would have
resolved fully: no table is produced at all, contradicting the claim that no
exception escapes and processing continues. -/
theorem c1_no_abort_cex :
    runSources netC1 [("a", "uA"), ("b", "uB")] [] = Except.error PyExc.attributeError ∧
    resolveSource netC1 "uB" = Except.ok (some fooURL) := by
  exact ⟨by decide, by decide⟩

/-- C1 (amended): an exception raised while resolving a source aborts the
whole batch with that exception; no source is ever skipped (the
`except TypeError` handler is unreachable, since the extraction failure raises
`AttributeError`); and a non-success HTTP status is not itself detected — the
run is completely insensitive to status codes. -/
theorem c1_failure_aborts_batch :
    (∀ (net : Net) (name url : String) (rest : List (String × String))
        (acc : StreamTable) (e : PyExc),
        resolveSource net url = Except.error e →
        runSources net ((name, url) :: rest) acc = Except.error e) ∧
    (∀ (net : Net) (url : String), resolveSource net url ≠ Except.ok none) ∧
    (∀ (f : String → Nat) (net : Net) (srcs : List (String × String)) (acc : StreamTable),
        runSources (withStatus f net) srcs acc = runSources net srcs acc) := by
  refine ⟨fun net name url rest acc e h => runSources_error_head net name url rest acc e h,
    fun net url => resolveSource_ne_skip net url, fun f net srcs acc => ?_⟩
  refine runSources_congr net (withStatus f net) ?_ ?_ srcs acc
  · intro u; cases h : net u <;> simp [withStatus, h]
  · intro u; cases h : net u <;> simp [withStatus, h]

/-- C1 (witness): the amended theorem applied to the concrete network. -/
theorem c1_failure_aborts_batch_w :
    runSources netC1 [("a", "uA")] [] = Except.error PyExc.attributeError ∧
    resolveSource netC1 "uA" ≠ Except.ok none ∧
    runSources (withStatus (fun _ => 404) netC1) [("b", "uB")] [] =
      runSources netC1 [("b", "uB")] [] :=
  ⟨c1_failure_aborts_batch.1 netC1 "a" "uA" [] [] PyExc.attributeError (by decide),
   c1_failure_aborts_batch.2.1 netC1 "uA",
   c1_failure_aborts_batch.2.2 (fun _ => 404) netC1 [("b", "uB")] []⟩

/-- C2 (counterexample): a landing page with a structurally present iframe
whose `src` matches the provider domain (single-quoted in the raw body).  The
spec-side locator picks that iframe, and fetching it would resolve fully, yet
the code fails with `AttributeError` because only the double-quote textual
pattern is ever applied: the structural strategy is not used at all, let alone
as the primary one. -/
theorem c2_structural_unused_cex :
    respAposA.iframes = [purlA] ∧
    spec_locatePlayerUrl respAposA = some purlA ∧
    netC2 purlA = some ⟨200, "", [], [some goodScript]⟩ ∧
    searchVarAddress (pyStripS goodScript) = some "http://foo.example.com/" ∧
    searchVarStreamid (pyStripS goodScript) = some "abc123" ∧
    resolveSource netC2 "uL2" = Except.error PyExc.attributeError := by
  exact ⟨by decide, by decide, by decide, by decide, by decide, by decide⟩

/-- C2 (amended): the resolver supports only the textual strategy — the first
match of the double-quoted player-URL pattern in the raw body; the parsed
iframe elements are never consulted (changing them changes nothing), and when
the textual pattern has no match the source fails with `AttributeError`
instead of falling back to a structural lookup. -/
theorem c2_textual_only :
    (∀ (f : String → List String) (net : Net) (srcs : List (String × String))
        (acc : StreamTable),
        runSources (withIframes f net) srcs acc = runSources net srcs acc) ∧
    (∀ (net : Net) (url : String) (resp : HttpResponse),
        net url = some resp → searchPlayerUrl resp.body = none →
        resolveSource net url = Except.error PyExc.attributeError) := by
  constructor
  · intro f net srcs acc
    refine runSources_congr net (withIframes f net) ?_ ?_ srcs acc
    · intro u; cases h : net u <;> simp [withIframes, h]
    · intro u; cases h : net u <;> simp [withIframes, h]
  · intro net url resp h1 h2
    unfold resolveSource
    simp only [h1, tryIframeSrc_error resp.body h2]

/-- C2 (witness): the amended theorem applied to the concrete network. -/
theorem c2_textual_only_w :
    runSources (withIframes (fun _ => []) netC2) [("c", "uL2")] [] =
      runSources netC2 [("c", "uL2")] [] ∧
    resolveSource netC2 "uL2" = Except.error PyExc.attributeError :=
  ⟨c2_textual_only.1 (fun _ => []) netC2 [("c", "uL2")] [],
   c2_textual_only.2 netC2 "uL2" respAposA (by decide) (by decide)⟩

/-- C3: every recorded media URL is exactly the concatenation of the resolved
address (the extracted address with its first four characters replaced by
`https`) with `streams/<streamid>/stream.m3u8`. -/
theorem c3_mediaURL_concatenation (net : Net) (url v : String)
    (h : resolveSource net url = Except.ok (some v)) :
    ∃ addr sid,
      (∃ resp ifr presp raw,
        net url = some resp ∧ searchPlayerUrl resp.body = some ifr ∧
        net ifr = some presp ∧ lastTag presp.scripts = Except.ok (some raw) ∧
        searchVarAddress (pyStripS raw) = some addr ∧
        searchVarStreamid (pyStripS raw) = some sid) ∧
      v = ("https" ++ pySlice4 addr) ++ ("streams/" ++ sid ++ "/stream.m3u8") := by
  obtain ⟨resp, ifr, presp, raw, addr, sid, h1, h2, h3, h4, h5, h6, h7⟩ :=
    resolveSource_ok_inv net url v h
  refine ⟨addr, sid, ⟨resp, ifr, presp, raw, h1, h2, h3, h4, h5, h6⟩, ?_⟩
  rw [h7]; simp [String.append_assoc]

/-- C3 (witness): the spec's concrete example, with the two `var` assignments
on separate lines as on the provider's pages: address
`http://foo.example.com/` and streamid `abc123` resolve end-to-end to
`https://foo.example.com/streams/abc123/stream.m3u8`. -/
theorem c3_mediaURL_concatenation_w :
    runSources netC3 [("cam", "uL3")] [] = Except.ok [("cam", fooURL)] ∧
    (∃ addr sid,
      (∃ resp ifr presp raw,
        netC3 "uL3" = some resp ∧ searchPlayerUrl resp.body = some ifr ∧
        netC3 ifr = some presp ∧ lastTag presp.scripts = Except.ok (some raw) ∧
        searchVarAddress (pyStripS raw) = some addr ∧
        searchVarStreamid (pyStripS raw) = some sid) ∧
      fooURL = ("https" ++ pySlice4 addr) ++ ("streams/" ++ sid ++ "/stream.m3u8")) :=
  ⟨by decide, c3_mediaURL_concatenation netC3 "uL3" fooURL (by decide)⟩

/-- C4 (counterexample): a player script containing only
`var streamid = 'xyz';` does not resolve with a default host — the missing
`address` line makes `re.search(...).group(1)` raise an uncaught
`AttributeError` and the batch aborts; nothing mentioning `s5.ipcamlive.com`
exists in the code. -/
theorem c4_no_default_host_cex :
    searchVarStreamid (pyStripS scriptOnlyStreamid) = some "xyz" ∧
    runSources netC4 [("cam", "uL4")] [] = Except.error PyExc.attributeError := by
  exact ⟨by decide, by decide⟩

/-- C4 (amended): the `address` assignment is mandatory: whenever the player
script has no `var address = '...';` line, resolution of that source raises
`AttributeError` (there is no default host). -/
theorem c4_missing_address_aborts (net : Net) (url : String)
    (resp presp : HttpResponse) (ifr raw : String)
    (h1 : net url = some resp) (h2 : searchPlayerUrl resp.body = some ifr)
    (h3 : net ifr = some presp) (h4 : lastTag presp.scripts = Except.ok (some raw))
    (h5 : searchVarAddress (pyStripS raw) = none) :
    resolveSource net url = Except.error PyExc.attributeError := by
  unfold resolveSource
  simp only [h1, (tryIframeSrc_ok_some_iff resp.body ifr).mpr h2, h3, h4, h5]

/-- C4 (witness): the amended theorem applied to the concrete network. -/
theorem c4_missing_address_aborts_w :
    resolveSource netC4 "uL4" = Except.error PyExc.attributeError :=
  c4_missing_address_aborts netC4 "uL4" ⟨200, landingQuotedA, [purlA], []⟩
    ⟨200, "", [], [some scriptOnlyStreamid]⟩ purlA scriptOnlyStreamid
    (by decide) (by decide) (by decide) (by decide) (by decide)

/-- C5 (counterexample): a player script with an `address` but no `streamid`
aborts the whole batch with an uncaught `AttributeError`: the following
source, which would have resolved fully, is never processed and no table is
produced — the batch does not continue. -/
theorem c5_no_skip_cex :
    searchVarStreamid (pyStripS scriptOnlyAddress) = none ∧
    resolveSource netC5 "uB5" = Except.ok (some fooURL) ∧
    runSources netC5 [("a", "uA5"), ("b", "uB5")] [] = Except.error PyExc.attributeError := by
  exact ⟨by decide, by decide, by decide⟩

/-- C5 (amended): `streamid` is indeed mandatory — when it cannot be
extracted, the source fails and yields no entry — but the failure is an
uncaught `AttributeError` that aborts the batch at that source instead of
skipping to the next one. -/
theorem c5_missing_streamid_aborts (net : Net) (name url : String)
    (rest : List (String × String)) (acc : StreamTable)
    (resp presp : HttpResponse) (ifr raw addr : String)
    (h1 : net url = some resp) (h2 : searchPlayerUrl resp.body = some ifr)
    (h3 : net ifr = some presp) (h4 : lastTag presp.scripts = Except.ok (some raw))
    (h5 : searchVarAddress (pyStripS raw) = some addr)
    (h6 : searchVarStreamid (pyStripS raw) = none) :
    resolveSource net url = Except.error PyExc.attributeError ∧
    runSources net ((name, url) :: rest) acc = Except.error PyExc.attributeError := by
  have hres : resolveSource net url = Except.error PyExc.attributeError := by
    unfold resolveSource
    simp only [h1, (tryIframeSrc_ok_some_iff resp.body ifr).mpr h2, h3, h4, h5, h6]
  exact ⟨hres, runSources_error_head net name url rest acc _ hres⟩

/-- C5 (witness): the amended theorem applied to the concrete network. -/
theorem c5_missing_streamid_aborts_w :
    resolveSource netC5 "uA5" = Except.error PyExc.attributeError ∧
    runSources netC5 [("a", "uA5"), ("b", "uB5")] [] = Except.error PyExc.attributeError :=
  c5_missing_streamid_aborts netC5 "a" "uA5" [("b", "uB5")] []
    ⟨200, landingQuotedB, [purlB], []⟩ ⟨200, "", [], [some scriptOnlyAddress]⟩
    purlB scriptOnlyAddress "http://foo.example.com/"
    (by decide) (by decide) (by decide) (by decide) (by decide) (by decide)

/-- C6 (counterexample): a player page whose last script tag (in document
order, over ALL script tags) has no text content, while an earlier inline
script holds the configuration.  The spec-side selection (last inline script)
would pick the configuration script; the code takes the overall last tag,
`None.strip()` raises `AttributeError`, and the batch aborts.  A page with
zero script tags likewise aborts the batch with `IndexError` rather than
skipping. -/
theorem c6_inline_selection_cex :
    lastInlineScript scriptsC6 = some goodScript ∧
    runSources netC6 [("cam", "uL6")] [] = Except.error PyExc.attributeError ∧
    runSources netC6e [("cam", "uL6e")] [] = Except.error PyExc.indexError := by
  exact ⟨by decide, by decide, by decide⟩

/-- C6 (amended): the configuration script is the last script tag among ALL
script tags of the player page, inline or not; when the page has no script
tags the iteration raises `IndexError`, and when the last tag has no text
content it raises `AttributeError` — in both cases the exception is uncaught
and the batch aborts instead of skipping the source. -/
theorem c6_last_script_overall (net : Net) (url : String)
    (resp presp : HttpResponse) (ifr : String)
    (h1 : net url = some resp) (h2 : searchPlayerUrl resp.body = some ifr)
    (h3 : net ifr = some presp) :
    (presp.scripts = [] → resolveSource net url = Except.error PyExc.indexError) ∧
    (∀ pre : List (Option String), presp.scripts = pre ++ [none] →
      resolveSource net url = Except.error PyExc.attributeError) := by
  constructor
  · intro hnil
    unfold resolveSource
    simp only [h1, (tryIframeSrc_ok_some_iff resp.body ifr).mpr h2, h3, hnil, lastTag]
  · intro pre hpre
    unfold resolveSource
    simp only [h1, (tryIframeSrc_ok_some_iff resp.body ifr).mpr h2, h3, hpre,
      lastTag_append_single]

/-- C6 (witness): the amended theorem applied to the concrete networks. -/
theorem c6_last_script_overall_w :
    resolveSource netC6e "uL6e" = Except.error PyExc.indexError ∧
    resolveSource netC6 "uL6" = Except.error PyExc.attributeError :=
  ⟨(c6_last_script_overall netC6e "uL6e" ⟨200, landingQuotedB, [purlB], []⟩
      ⟨200, "", [], []⟩ purlB (by decide) (by decide) (by decide)).1 rfl,
   (c6_last_script_overall netC6 "uL6" ⟨200, landingQuotedA, [purlA], []⟩
      ⟨200, "", [], scriptsC6⟩ purlA (by decide) (by decide) (by decide)).2
      [some goodScript] rfl⟩

/-- C7: in a completed run, every entry of the produced table comes from an
input source that fully resolved to exactly that URL (so a source that fails
at any step contributes no entry of any kind), and the table's keys are
unique. -/
theorem c7_table_invariant (net : Net) (srcs : List (String × String)) (t : StreamTable)
    (h : runSources net srcs [] = Except.ok t) :
    (∀ p ∈ t, ∃ u, (p.1, u) ∈ srcs ∧ resolveSource net u = Except.ok (some p.2)) ∧
    (t.map Prod.fst).Nodup := by
  constructor
  · intro p hp
    rcases runSources_mem net srcs [] t h p hp with h1 | h2
    · exact absurd h1 (List.not_mem_nil p)
    · exact h2
  · exact runSources_nodup net srcs [] t (by simp) h

/-- C7 (witness): the invariant applied to a concrete two-source run. -/
theorem c7_table_invariant_w :
    (∀ p ∈ ([("x", fooURL), ("y", fooURL)] : StreamTable),
      ∃ u, (p.1, u) ∈ [("x", "uL3"), ("y", "uL3")] ∧
        resolveSource netC3 u = Except.ok (some p.2)) ∧
    (([("x", fooURL), ("y", fooURL)] : StreamTable).map Prod.fst).Nodup :=
  c7_table_invariant netC3 [("x", "uL3"), ("y", "uL3")]
    [("x", fooURL), ("y", fooURL)] (by decide)

/-- C8: when a run completes, the written artifact is exactly the freshly
built table, whatever the prior artifact was: re-running with the same
network overwrites rather than merges, two runs agree, and a second run after
the first changes nothing. -/
theorem c8_fresh_rebuild (net : Net) (srcs : List (String × String)) (t : StreamTable)
    (h : runSources net srcs [] = Except.ok t) (prior prior2 : Option StreamTable) :
    artifactAfter net srcs prior = some t ∧
    artifactAfter net srcs prior2 = artifactAfter net srcs prior ∧
    artifactAfter net srcs (artifactAfter net srcs prior) = artifactAfter net srcs prior := by
  have h1 : ∀ q : Option StreamTable, artifactAfter net srcs q = some t := by
    intro q
    unfold artifactAfter
    simp only [h]
  exact ⟨h1 prior, (h1 prior2).trans (h1 prior).symm, (h1 _).trans (h1 prior).symm⟩

/-- C8 (witness): the rebuild property applied to a concrete run, starting
once from no prior artifact and once from a stale one. -/
theorem c8_fresh_rebuild_w :
    artifactAfter netC3 [("cam", "uL3")] none = some [("cam", fooURL)] ∧
    artifactAfter netC3 [("cam", "uL3")] (some [("old", "stale")]) =
      artifactAfter netC3 [("cam", "uL3")] none ∧
    artifactAfter netC3 [("cam", "uL3")] (artifactAfter netC3 [("cam", "uL3")] none) =
      artifactAfter netC3 [("cam", "uL3")] none :=
  c8_fresh_rebuild netC3 [("cam", "uL3")] [("cam", fooURL)] (by decide)
    none (some [("old", "stale")])

/-- C9: every media URL recorded in a completed run's table begins with the
literal `https` and ends with the literal `/stream.m3u8`, whatever text the
extracted address started with, because the composition is
`"https" + address[4:] + "streams/" + streamid + "/stream.m3u8"`. -/
theorem c9_url_shape (net : Net) (srcs : List (String × String)) (t : StreamTable)
    (h : runSources net srcs [] = Except.ok t) (p : String × String) (hp : p ∈ t) :
    (∃ tail, p.2 = "https" ++ tail) ∧ (∃ front, p.2 = front ++ "/stream.m3u8") := by
  rcases runSources_mem net srcs [] t h p hp with h1 | ⟨u, hu, hres⟩
  · exact absurd h1 (List.not_mem_nil p)
  · obtain ⟨resp, ifr, presp, raw, addr, sid, g1, g2, g3, g4, g5, g6, g7⟩ :=
      resolveSource_ok_inv net u p.2 hres
    constructor
    · refine ⟨pySlice4 addr ++ ("streams/" ++ (sid ++ "/stream.m3u8")), ?_⟩
      rw [g7]; simp [String.append_assoc]
    · exact ⟨"https" ++ pySlice4 addr ++ "streams/" ++ sid, g7⟩

/-- C9 (witness): the shape invariant applied to a concrete run's entry. -/
theorem c9_url_shape_w :
    (∃ tail, fooURL = "https" ++ tail) ∧ (∃ front, fooURL = front ++ "/stream.m3u8") :=
  c9_url_shape netC3 [("cam", "uL3")] [("cam", fooURL)] (by decide)
    ("cam", fooURL) (by decide)

/-- C10: the post-extraction guard `if stream_id is not None:` never rejects a
successfully matched streamid — `group(1)` of a successful search is a genuine
string — so for every matched value, including the empty string, an entry is
inserted into the table for that source and the loop moves on. -/
theorem c10_guard_inserts (net : Net) (name url : String)
    (rest : List (String × String)) (acc : StreamTable)
    (resp presp : HttpResponse) (ifr raw addr sid : String)
    (h1 : net url = some resp) (h2 : searchPlayerUrl resp.body = some ifr)
    (h3 : net ifr = some presp) (h4 : lastTag presp.scripts = Except.ok (some raw))
    (h5 : searchVarAddress (pyStripS raw) = some addr)
    (h6 : searchVarStreamid (pyStripS raw) = some sid) :
    runSources net ((name, url) :: rest) acc =
      runSources net rest
        (dictInsert acc name ("https" ++ pySlice4 addr ++ "streams/" ++ sid ++ "/stream.m3u8")) := by
  simp only [runSources, resolveSource_ok_of net url resp presp ifr raw addr sid h1 h2 h3 h4 h5 h6]

/-- C10 (witness): a player script whose streamid literal is empty still
produces an entry, with the degenerate path segment `streams//stream.m3u8`. -/
theorem c10_guard_inserts_w :
    runSources netC10 [("cam", "uL10")] [] =
      runSources netC10 []
        (dictInsert [] "cam"
          ("https" ++ pySlice4 "http://foo.example.com/" ++ "streams/" ++ "" ++ "/stream.m3u8")) ∧
    runSources netC10 [("cam", "uL10")] [] =
      Except.ok [("cam", "https://foo.example.com/streams//stream.m3u8")] :=
  ⟨c10_guard_inserts netC10 "cam" "uL10" [] [] ⟨200, landingQuotedA, [purlA], []⟩
      ⟨200, "", [], [some scriptEmptyStreamid]⟩ purlA scriptEmptyStreamid
      "http://foo.example.com/" ""
      (by decide) (by decide) (by decide) (by decide) (by decide) (by decide),
   by decide⟩
